import Mathlib

/-!
Verification of `src/helper_functions.py` (habedi/rag-playground).

The module has three stateless functions:

* `load_data(data_dir, ext='txt')` — iterates `data_dir.glob(f'*.{ext}')`,
  reads each file inside a `with open(...)` block, and returns a pandas
  `DataFrame` with columns `id` (the `Path.stem` of the file) and `text`
  (the file's decoded content).
* `get_openai_api_key(file_path)` — `json.load`s the file and returns the
  value at key `"secret_key"`.
* `embed_documents(documents, openai_client, embedding_model)` — returns
  `openai_client.embeddings.create(input=documents, model=embedding_model)`.

The shallow embedding below models the filesystem explicitly.  Semantics of
the standard library pieces are taken from CPython 3.11:

* `pathlib.Path.glob('*.<ext>')` matches exactly the entry names ending in
  `"." ++ ext` (fnmatch translation of `*.<ext>`, dotfiles included); on a
  missing or not-a-directory path it returns an empty iterator
  (`_Selector.select_from`: `if not is_dir(parent_path): return iter([])`),
  and a `PermissionError` from `scandir` is swallowed
  (`_WildcardSelector._select_from`), so an unreadable directory also yields
  no entries rather than an error.
* `pathlib.PurePath.stem` strips the name at its last `'.'` only when that
  dot is neither the first nor the last character of the name.
* a Python `dict` built by `json.load` resolves duplicate keys to the last
  occurrence; indexing a non-dict with a string raises `TypeError`, and a
  missing key raises `KeyError`.

Errors (exceptions) are modelled with `Except`; reading a file is modelled
by a per-file `read` result so that open/decode failures propagate exactly
where the Python `file.read()` call sits.
-/

/-- Python exceptions that can surface from this module. -/
inductive Err where
  | fileNotFound
  | permissionError
  | isADirectoryError
  | unicodeDecodeError
  | jsonDecodeError
  | keyError (key : String)
  | typeError
  | apiError (msg : String)
deriving DecidableEq

/-- A directory entry: its name and the result of `open(path, 'r').read()`
(an `Err` models an open, read or decode failure for that entry). -/
structure FSFile where
  name : String
  read : Except Err String

/-- The state of the path handed to `load_data`: missing (or not a
directory), a directory whose entries cannot be listed, or a readable
directory with its list of entries in scandir order. -/
inductive Directory where
  | missing
  | unreadable
  | readable (files : List FSFile)

/-- The two-column pandas DataFrame built by `load_data`. -/
structure DataFrame where
  id : List String
  text : List String
deriving DecidableEq, Repr

/-- File-handle events, used to model the `with open(...)` blocks. -/
inductive FEvent where
  | openF (name : String)
  | closeF (name : String)
deriving DecidableEq

/-- Whether entry name `name` matches the glob pattern `*.<ext>`:
fnmatch translates `*.<ext>` to `.*\.<ext>` anchored at both ends, so the
name matches exactly when it ends with `"." ++ ext`. -/
def globMatch (ext name : String) : Bool :=
  ("." ++ ext).data.isSuffixOf name.data

/-- Index of the last `'.'` in a character list (Python `str.rfind('.')`,
with `none` for "not found"). -/
def lastDotIdx : List Char → Option Nat
  | [] => none
  | c :: cs =>
    match lastDotIdx cs with
    | some i => some (i + 1)
    | none => if c = '.' then some 0 else none

/-- Python `pathlib.PurePath.stem`: the name cut at its last dot, provided
that dot is neither the first nor the last character; otherwise the name
unchanged. -/
def pyStem (name : String) : String :=
  match lastDotIdx name.data with
  | none => name
  | some i =>
    if 0 < i ∧ i + 1 < name.data.length then String.mk (name.data.take i)
    else name

/-- The entries yielded by `data_dir.glob(f'*.{ext}')`: none for a missing
or unreadable directory (pathlib swallows both conditions), and the
name-matching entries in listing order otherwise. -/
def Directory.globFiles (d : Directory) (ext : String) : List FSFile :=
  match d with
  | .missing => []
  | .unreadable => []
  | .readable files => files.filter fun f => globMatch ext f.name

/-- The `for file_path in ...` loop body of `load_data`: read each file in
order, collecting (`documents`, `documents_ids`); the first read failure
aborts the loop with that error. -/
def loadLoop : List FSFile → Except Err (List String × List String)
  | [] => .ok ([], [])
  | f :: fs =>
    match f.read with
    | .error e => .error e
    | .ok t =>
      match loadLoop fs with
      | .error e => .error e
      | .ok (docs, ids) => .ok (t :: docs, pyStem f.name :: ids)

/-- `load_data(data_dir, ext)`: glob the directory, read every matching
file, and build the DataFrame `{'id': documents_ids, 'text': documents}`. -/
def load_data (data_dir : Directory) (ext : String) : Except Err DataFrame :=
  match loadLoop (data_dir.globFiles ext) with
  | .error e => .error e
  | .ok (docs, ids) => .ok { id := ids, text := docs }

/-- The loop of `load_data` instrumented with file-handle events: each
iteration's `with open(file_path)` opens a handle and closes it on both the
normal and the exceptional exit of the block. -/
def loadLoopT : List FSFile → Except Err (List String × List String) × List FEvent
  | [] => (.ok ([], []), [])
  | f :: fs =>
    match f.read with
    | .error e => (.error e, [.openF f.name, .closeF f.name])
    | .ok t =>
      match loadLoopT fs with
      | (.error e, tr) => (.error e, .openF f.name :: .closeF f.name :: tr)
      | (.ok (docs, ids), tr) =>
        (.ok (t :: docs, pyStem f.name :: ids), .openF f.name :: .closeF f.name :: tr)

/-- `load_data` instrumented with its file-handle trace. -/
def load_data_traced (data_dir : Directory) (ext : String) :
    Except Err DataFrame × List FEvent :=
  match loadLoopT (data_dir.globFiles ext) with
  | (.error e, tr) => (.error e, tr)
  | (.ok (docs, ids), tr) => (.ok { id := ids, text := docs }, tr)

/-- A trace is a sequence of immediately matched open/close pairs: every
handle opened is closed before anything else happens. -/
def balanced : List FEvent → Bool
  | [] => true
  | .openF n :: .closeF m :: rest => n == m && balanced rest
  | _ => false

/-- JSON values as produced by `json.load`. -/
inductive Json where
  | null
  | bool (b : Bool)
  | num (n : Int)
  | str (s : String)
  | arr (elems : List Json)
  | obj (kvs : List (String × Json))

/-- Whether a JSON value is an object (a Python `dict` after `json.load`). -/
def Json.isObj : Json → Bool
  | .obj _ => true
  | _ => false

/-- Lookup in an object's key/value list with Python-dict semantics: the
last binding of a duplicated key wins. -/
def lookupLast (kvs : List (String × Json)) (k : String) : Option Json :=
  match kvs with
  | [] => none
  | (k2, v) :: rest =>
    match lookupLast rest k with
    | some r => some r
    | none => if k2 = k then some v else none

/-- Python subscription `j[k]` with a string key: `KeyError` on a dict
without the key, `TypeError` on any non-dict value. -/
def jsonIndex (j : Json) (k : String) : Except Err Json :=
  match j with
  | .obj kvs =>
    match lookupLast kvs k with
    | some v => .ok v
    | none => .error (.keyError k)
  | _ => .error .typeError

/-- The file handed to `get_openai_api_key`: its path, and the result of
`open(file_path)` (outer `Except`: open fails before any handle exists)
followed by `json.load(file)` (inner `Except`: read/parse failure with the
handle open). -/
structure JsonFile where
  path : String
  opened : Except Err (Except Err Json)

/-- `get_openai_api_key(file_path)`: open the file, `json.load` it, and
index the result with `'secret_key'`; every failure propagates. -/
def get_openai_api_key (file_path : JsonFile) : Except Err Json :=
  match file_path.opened with
  | .error e => .error e
  | .ok (.error e) => .error e
  | .ok (.ok j) => jsonIndex j "secret_key"

/-- `get_openai_api_key` instrumented with its file-handle trace: the
`with open(...)` block opens no handle when `open` itself fails, and closes
the handle on both the normal and the exceptional exit otherwise. -/
def get_openai_api_key_traced (file_path : JsonFile) :
    Except Err Json × List FEvent :=
  match file_path.opened with
  | .error e => (.error e, [])
  | .ok (.error e) => (.error e, [.openF file_path.path, .closeF file_path.path])
  | .ok (.ok j) =>
    (jsonIndex j "secret_key", [.openF file_path.path, .closeF file_path.path])

/-- The `embeddings` attribute of the OpenAI client: an object with a
`create` operation taking the input documents and the model name.  The
effect type `M` is the client's own (network calls, recording stubs, ...):
this module treats the client as an opaque capability. -/
structure Embeddings (M : Type → Type) (R : Type) where
  create : List String → String → M R

/-- The externally supplied OpenAI client object. -/
structure OpenAIClient (M : Type → Type) (R : Type) where
  embeddings : Embeddings M R

/-- `embed_documents(documents, openai_client, embedding_model)`: the single
call `openai_client.embeddings.create(input=documents, model=embedding_model)`,
returned verbatim. -/
def embed_documents {M : Type → Type} {R : Type} (documents : List String)
    (openai_client : OpenAIClient M R) (embedding_model : String) : M R :=
  openai_client.embeddings.create documents embedding_model

/-- A stub client returning the fixed value `v` and recording each call's
arguments, for observing how `embed_documents` uses the client. -/
def recordingStub (R : Type) (v : R) :
    OpenAIClient (StateM (List (List String × String))) R :=
  ⟨⟨fun docs model calls => (v, calls ++ [(docs, model)])⟩⟩

/-- Modelled from the spec: "`id` equals the source file's name with its
extension stripped" — the name with the trailing `"." ++ ext` removed. -/
def stripExtSpec (ext name : String) : String :=
  String.mk (name.data.take (name.data.length - (ext.data.length + 1)))


/-! ### Helper lemmas -/

/-- Characterization of a successful run of the read loop: the collected
`documents_ids` are the stems of the processed files in order, and each
collected text is the successful read of the file at the same position. -/
theorem loadLoop_ok {fs : List FSFile} {docs ids : List String}
    (h : loadLoop fs = .ok (docs, ids)) :
    ids = fs.map (fun f => pyStem f.name)
    ∧ List.Forall₂ (fun f t => f.read = Except.ok t) fs docs := by
  induction fs generalizing docs ids with
  | nil =>
    simp only [loadLoop, Except.ok.injEq, Prod.mk.injEq] at h
    obtain ⟨h1, h2⟩ := h
    subst h1; subst h2
    exact ⟨rfl, List.Forall₂.nil⟩
  | cons f fs ih =>
    cases hr : f.read with
    | error e => simp [loadLoop, hr] at h
    | ok t =>
      cases hl : loadLoop fs with
      | error e => simp [loadLoop, hr, hl] at h
      | ok p =>
        rcases p with ⟨docs2, ids2⟩
        simp only [loadLoop, hr, hl, Except.ok.injEq, Prod.mk.injEq] at h
        obtain ⟨hdocs, hids⟩ := h
        subst hdocs; subst hids
        obtain ⟨ih1, ih2⟩ := ih hl
        exact ⟨by rw [List.map_cons, ih1], List.Forall₂.cons hr ih2⟩

/-- The read loop propagates the first failing read unchanged: if every
file before `f` reads fine and `f`'s read fails with `e`, the loop result
is exactly `e`. -/
theorem loadLoop_error {pre : List FSFile} {f : FSFile} {rest : List FSFile}
    {e : Err} (hpre : ∀ g ∈ pre, ∃ t, g.read = Except.ok t)
    (hf : f.read = Except.error e) :
    loadLoop (pre ++ f :: rest) = .error e := by
  induction pre with
  | nil => simp [loadLoop, hf]
  | cons g pre ih =>
    obtain ⟨t, ht⟩ := hpre g (List.mem_cons_self g pre)
    have ih2 := ih fun g2 hg2 => hpre g2 (List.mem_cons_of_mem _ hg2)
    simp [loadLoop, ht, ih2]

/-- The instrumented loop computes the same value as the plain loop. -/
theorem loadLoopT_fst (fs : List FSFile) : (loadLoopT fs).1 = loadLoop fs := by
  induction fs with
  | nil => rfl
  | cons f fs ih =>
    cases hr : f.read with
    | error e => simp [loadLoopT, loadLoop, hr]
    | ok t =>
      rcases hlt : loadLoopT fs with ⟨r, tr⟩
      rw [hlt] at ih
      have ih2 : r = loadLoop fs := ih
      cases r with
      | error e => simp [loadLoopT, loadLoop, hr, hlt, ← ih2]
      | ok p =>
        rcases p with ⟨docs, ids⟩
        simp [loadLoopT, loadLoop, hr, hlt, ← ih2]

/-- Every trace of the instrumented loop is a sequence of matched
open/close pairs. -/
theorem loadLoopT_balanced (fs : List FSFile) :
    balanced (loadLoopT fs).2 = true := by
  induction fs with
  | nil => rfl
  | cons f fs ih =>
    cases hr : f.read with
    | error e => simp [loadLoopT, hr, balanced]
    | ok t =>
      rcases hlt : loadLoopT fs with ⟨r, tr⟩
      rw [hlt] at ih
      have ih2 : balanced tr = true := ih
      cases r with
      | error e => simp [loadLoopT, hr, hlt, balanced, ih2]
      | ok p =>
        rcases p with ⟨docs, ids⟩
        simp [loadLoopT, hr, hlt, balanced, ih2]

/-- The instrumented `load_data` computes the same value as `load_data`. -/
theorem load_data_traced_fst (d : Directory) (ext : String) :
    (load_data_traced d ext).1 = load_data d ext := by
  have h : (loadLoopT (d.globFiles ext)).1 = loadLoop (d.globFiles ext) :=
    loadLoopT_fst _
  rcases hlt : loadLoopT (d.globFiles ext) with ⟨r, tr⟩
  rw [hlt] at h
  have h2 : r = loadLoop (d.globFiles ext) := h
  cases r with
  | error e => simp [load_data_traced, load_data, hlt, ← h2]
  | ok p =>
    rcases p with ⟨docs, ids⟩
    simp [load_data_traced, load_data, hlt, ← h2]

/-- The file-handle trace of `load_data` is balanced on every input. -/
theorem load_data_traced_balanced (d : Directory) (ext : String) :
    balanced (load_data_traced d ext).2 = true := by
  have h := loadLoopT_balanced (d.globFiles ext)
  rcases hlt : loadLoopT (d.globFiles ext) with ⟨r, tr⟩
  rw [hlt] at h
  have h2 : balanced tr = true := h
  cases r with
  | error e => simp [load_data_traced, hlt, h2]
  | ok p =>
    rcases p with ⟨docs, ids⟩
    simp [load_data_traced, hlt, h2]

/-- Characterization of a successful `load_data`: the `id` column is the
stem of each globbed file in order, and the `text` column pairs each
globbed file with its successfully read content. -/
theorem load_data_ok_spec {d : Directory} {ext : String} {df : DataFrame}
    (h : load_data d ext = .ok df) :
    df.id = (d.globFiles ext).map (fun f => pyStem f.name)
    ∧ List.Forall₂ (fun f t => f.read = Except.ok t) (d.globFiles ext) df.text := by
  cases hl : loadLoop (d.globFiles ext) with
  | error e => simp [load_data, hl] at h
  | ok p =>
    rcases p with ⟨docs, ids⟩
    simp only [load_data, hl, Except.ok.injEq] at h
    obtain ⟨h1, h2⟩ := loadLoop_ok hl
    subst h
    exact ⟨h1, h2⟩

/-! ### Claims -/

/-- C1: for a directory whose listing contains exactly the files matching
the glob `*.<ext>` among others, a successful `load_data` returns one row
per matching file — the `id` column is exactly the stems of the matching
files in order — and no row for any non-matching file. -/
theorem claim_C1_row_per_matching_file (files : List FSFile) (ext : String)
    (df : DataFrame) (h : load_data (.readable files) ext = .ok df) :
    df.id.length = (files.filter fun f => globMatch ext f.name).length
    ∧ df.id = (files.filter fun f => globMatch ext f.name).map
        fun f => pyStem f.name := by
  obtain ⟨h1, _⟩ := load_data_ok_spec h
  have hg : Directory.globFiles (.readable files) ext
      = files.filter fun f => globMatch ext f.name := rfl
  rw [hg] at h1
  exact ⟨by rw [h1, List.length_map], h1⟩

/-- Witness for C1: a directory with one `.txt` file and one `.md` file
yields exactly one row, for the `.txt` file. -/
theorem claim_C1_witness :
    (["a"] : List String).length
        = (([⟨"a.txt", .ok "x"⟩, ⟨"b.md", .ok "y"⟩] : List FSFile).filter
            fun f => globMatch "txt" f.name).length
    ∧ (["a"] : List String)
        = (([⟨"a.txt", .ok "x"⟩, ⟨"b.md", .ok "y"⟩] : List FSFile).filter
            fun f => globMatch "txt" f.name).map fun f => pyStem f.name :=
  claim_C1_row_per_matching_file [⟨"a.txt", .ok "x"⟩, ⟨"b.md", .ok "y"⟩] "txt"
    { id := ["a"], text := ["x"] } rfl

/-- C2 fails as stated: with `ext = "tar.gz"` and a file `a.tar.gz`, the
code uses `Path.stem`, which strips only the final `.gz`, so the row's
`id` is `"a.tar"` and not `"a"`, the name with the extension stripped. -/
theorem claim_C2_counterexample :
    load_data (.readable [⟨"a.tar.gz", .ok "hello"⟩]) "tar.gz"
        = .ok { id := ["a.tar"], text := ["hello"] }
    ∧ stripExtSpec "tar.gz" "a.tar.gz" = "a"
    ∧ ("a.tar" : String) ≠ "a" :=
  ⟨rfl, rfl, by decide⟩

/-- C2 (amended): for every row, `id` is the Python `Path.stem` of the
file's name — the name cut at its last dot when that dot is neither the
first nor the last character, which strips only the final suffix component
— and `text` is the exact decoded content of the same file. -/
theorem claim_C2_id_stem_text_content (files : List FSFile) (ext : String)
    (df : DataFrame) (h : load_data (.readable files) ext = .ok df)
    (i : Nat) (hi : i < (files.filter fun f => globMatch ext f.name).length) :
    ∃ f t, (files.filter fun f => globMatch ext f.name).get? i = some f
      ∧ df.id.get? i = some (pyStem f.name)
      ∧ f.read = Except.ok t
      ∧ df.text.get? i = some t := by
  obtain ⟨h1, h2⟩ := load_data_ok_spec h
  have hg : Directory.globFiles (.readable files) ext
      = files.filter fun f => globMatch ext f.name := rfl
  rw [hg] at h1 h2
  have hlen := h2.length_eq
  have hit : i < df.text.length := hlen ▸ hi
  refine ⟨(files.filter fun f => globMatch ext f.name).get ⟨i, hi⟩,
    df.text.get ⟨i, hit⟩, List.get?_eq_get hi, ?_, ?_, List.get?_eq_get hit⟩
  · rw [h1, List.get?_map, List.get?_eq_get hi]
    rfl
  · exact (List.forall₂_iff_get.mp h2).2 i hi hit

/-- Witness for C2 (amended): a directory with the single file `n.txt`
containing `body` yields the row `("n", "body")`. -/
theorem claim_C2_witness :
    ∃ f t, (([⟨"n.txt", .ok "body"⟩] : List FSFile).filter
        fun f => globMatch "txt" f.name).get? 0 = some f
      ∧ (["n"] : List String).get? 0 = some (pyStem f.name)
      ∧ f.read = Except.ok t
      ∧ (["body"] : List String).get? 0 = some t :=
  claim_C2_id_stem_text_content [⟨"n.txt", .ok "body"⟩] "txt"
    { id := ["n"], text := ["body"] } rfl 0 (by decide)

/-- C3: `embed_documents` is a verbatim pass-through to the client: for any
client in any effect type it returns exactly
`openai_client.embeddings.create documents embedding_model`, and the
recording stub observes exactly one call, carrying exactly the given
documents list and model name, and its fixed value is returned exactly. -/
theorem claim_C3_embed_passthrough :
    (∀ (M : Type → Type) (R : Type) (documents : List String)
        (openai_client : OpenAIClient M R) (embedding_model : String),
        embed_documents documents openai_client embedding_model
          = openai_client.embeddings.create documents embedding_model)
    ∧ ∀ (R : Type) (v : R) (documents : List String) (embedding_model : String),
        (embed_documents documents (recordingStub R v) embedding_model).run []
          = (v, [(documents, embedding_model)]) :=
  ⟨fun _ _ _ _ _ => rfl, fun _ _ _ _ => rfl⟩

/-- C4: on a JSON file parsing to the object with `secret_key` bound to
`abc123`, `get_openai_api_key` returns exactly the string `abc123`. -/
theorem claim_C4_secret_key_value :
    get_openai_api_key
        ⟨"credentials.json", .ok (.ok (.obj [("secret_key", .str "abc123")]))⟩
      = .ok (.str "abc123") := rfl

/-- C5: on a JSON object without the key `secret_key`,
`get_openai_api_key` fails with a `KeyError` for exactly that key — being
an error, the result is no default or empty value. -/
theorem claim_C5_missing_key_error (p : String) (kvs : List (String × Json))
    (h : lookupLast kvs "secret_key" = none) :
    get_openai_api_key ⟨p, .ok (.ok (.obj kvs))⟩
      = .error (.keyError "secret_key") := by
  simp [get_openai_api_key, jsonIndex, h]

/-- Witness for C5: a JSON object with only an `api_key` field. -/
theorem claim_C5_witness :
    get_openai_api_key ⟨"k.json", .ok (.ok (.obj [("api_key", .str "x")]))⟩
      = .error (.keyError "secret_key") :=
  claim_C5_missing_key_error "k.json" [("api_key", .str "x")] rfl

/-- C6: when no file in the directory matches the extension, `load_data`
returns the zero-row table — both (`String`-typed) columns present and
empty. -/
theorem claim_C6_no_match_empty_table (files : List FSFile) (ext : String)
    (h : files.filter (fun f => globMatch ext f.name) = []) :
    load_data (.readable files) ext = .ok { id := [], text := [] } := by
  simp [load_data, Directory.globFiles, h, loadLoop]

/-- Witness for C6: a directory holding only `.md` and `.png` files,
loaded with extension `txt`. -/
theorem claim_C6_witness :
    load_data (.readable [⟨"notes.md", .ok "m"⟩, ⟨"img.png", .ok "p"⟩]) "txt"
      = .ok { id := [], text := [] } :=
  claim_C6_no_match_empty_table [⟨"notes.md", .ok "m"⟩, ⟨"img.png", .ok "p"⟩]
    "txt" rfl

/-- C7 fails as stated for the directory error cases: pathlib's glob
swallows a missing directory (`select_from` returns an empty iterator when
the parent is not a directory) and an unreadable one (`PermissionError`
from `scandir` is caught), so `load_data` returns an empty table rather
than propagating a filesystem error. -/
theorem claim_C7_counterexample :
    load_data .missing "txt" = .ok { id := [], text := [] }
    ∧ load_data .unreadable "txt" = .ok { id := [], text := [] } :=
  ⟨rfl, rfl⟩

/-- C7 (amended): every error that does occur propagates unchanged — the
first failing file read aborts `load_data` with exactly that error, an
open, parse or missing-key failure aborts `get_openai_api_key` with
exactly that error, and `embed_documents` returns the client's outcome
verbatim (hence any client error unmodified); a missing or unreadable
directory, however, is
not an error case: glob yields no entries and `load_data` succeeds with an
empty table. -/
theorem claim_C7_error_propagation :
    (∀ (d : Directory) (ext : String) (pre : List FSFile) (f : FSFile)
        (rest : List FSFile) (e : Err),
        d.globFiles ext = pre ++ f :: rest →
        (∀ g ∈ pre, ∃ t, g.read = Except.ok t) →
        f.read = Except.error e →
        load_data d ext = .error e)
    ∧ (∀ (p : String) (e : Err),
        get_openai_api_key ⟨p, .error e⟩ = .error e)
    ∧ (∀ (p : String) (e : Err),
        get_openai_api_key ⟨p, .ok (.error e)⟩ = .error e)
    ∧ (∀ (p : String) (kvs : List (String × Json)),
        lookupLast kvs "secret_key" = none →
        get_openai_api_key ⟨p, .ok (.ok (.obj kvs))⟩
          = .error (.keyError "secret_key"))
    ∧ ∀ (R : Type) (documents : List String) (embedding_model : String)
        (openai_client : OpenAIClient (Except Err) R),
        embed_documents documents openai_client embedding_model
          = openai_client.embeddings.create documents embedding_model := by
  refine ⟨?_, fun p e => rfl, fun p e => rfl, ?_, fun R docs m c => rfl⟩
  · intro d ext pre f rest e hglob hpre hf
    simp only [load_data, hglob, loadLoop_error hpre hf]
  · intro p kvs hk
    simp [get_openai_api_key, jsonIndex, hk]

/-- Witness for C7 (amended): a decode failure surfaces from `load_data`
unchanged, a missing JSON file surfaces from `get_openai_api_key`
unchanged, and an object lacking `secret_key` surfaces as its `KeyError`
unchanged. -/
theorem claim_C7_witness :
    load_data (.readable [⟨"bad.txt", .error .unicodeDecodeError⟩]) "txt"
        = .error .unicodeDecodeError
    ∧ get_openai_api_key ⟨"missing.json", .error .fileNotFound⟩
        = .error .fileNotFound
    ∧ get_openai_api_key ⟨"conf.json", .ok (.ok (.obj [("token", .str "t")]))⟩
        = .error (.keyError "secret_key") :=
  ⟨claim_C7_error_propagation.1
      (.readable [⟨"bad.txt", .error .unicodeDecodeError⟩]) "txt" []
      ⟨"bad.txt", .error .unicodeDecodeError⟩ [] .unicodeDecodeError rfl
      (by simp) rfl,
    claim_C7_error_propagation.2.1 "missing.json" .fileNotFound,
    claim_C7_error_propagation.2.2.2.1 "conf.json" [("token", .str "t")] rfl⟩

/-- C8: on every input — error paths included — the file-handle traces of
`load_data` and `get_openai_api_key` consist solely of matched open/close
pairs (each `with open(...)` block closes its handle before anything else
happens), and the instrumented functions compute the same values as the
plain ones. -/
theorem claim_C8_handles_released :
    (∀ (d : Directory) (ext : String),
        balanced (load_data_traced d ext).2 = true
        ∧ (load_data_traced d ext).1 = load_data d ext)
    ∧ ∀ jf : JsonFile,
        balanced (get_openai_api_key_traced jf).2 = true
        ∧ (get_openai_api_key_traced jf).1 = get_openai_api_key jf := by
  refine ⟨fun d ext =>
    ⟨load_data_traced_balanced d ext, load_data_traced_fst d ext⟩, ?_⟩
  intro jf
  rcases jf with ⟨p, opened⟩
  rcases opened with e | pj
  · exact ⟨rfl, rfl⟩
  · rcases pj with e | j
    · refine ⟨?_, rfl⟩
      simp [get_openai_api_key_traced, balanced]
    · refine ⟨?_, rfl⟩
      simp [get_openai_api_key_traced, balanced]

/-- C9: in every table returned by `load_data` the two columns have equal
length (both equal to the number of globbed files), and position `i` pairs
the stem of the `i`-th globbed file with that same file's content. -/
theorem claim_C9_columns_aligned (d : Directory) (ext : String)
    (df : DataFrame) (h : load_data d ext = .ok df) :
    df.id.length = df.text.length
    ∧ df.id.length = (d.globFiles ext).length
    ∧ ∀ i, i < df.id.length →
        ∃ f t, (d.globFiles ext).get? i = some f
          ∧ df.id.get? i = some (pyStem f.name)
          ∧ f.read = Except.ok t
          ∧ df.text.get? i = some t := by
  obtain ⟨h1, h2⟩ := load_data_ok_spec h
  have hlen2 := h2.length_eq
  have hlen1 : df.id.length = (d.globFiles ext).length := by
    rw [h1, List.length_map]
  refine ⟨by rw [hlen1, hlen2], hlen1, ?_⟩
  intro i hi
  have hig : i < (d.globFiles ext).length := hlen1 ▸ hi
  have hit : i < df.text.length := hlen2 ▸ hig
  refine ⟨(d.globFiles ext).get ⟨i, hig⟩, df.text.get ⟨i, hit⟩,
    List.get?_eq_get hig, ?_, ?_, List.get?_eq_get hit⟩
  · rw [h1, List.get?_map, List.get?_eq_get hig]
    rfl
  · exact (List.forall₂_iff_get.mp h2).2 i hig hit

/-- Witness for C9: two `.txt` files yield two aligned rows. -/
theorem claim_C9_witness :
    (["doc1", "doc2"] : List String).length
        = (["alpha", "beta"] : List String).length
    ∧ (["doc1", "doc2"] : List String).length
        = ((Directory.readable
            [⟨"doc1.txt", .ok "alpha"⟩, ⟨"doc2.txt", .ok "beta"⟩]).globFiles
              "txt").length
    ∧ ∀ i, i < (["doc1", "doc2"] : List String).length →
        ∃ f t, ((Directory.readable
            [⟨"doc1.txt", .ok "alpha"⟩, ⟨"doc2.txt", .ok "beta"⟩]).globFiles
              "txt").get? i = some f
          ∧ (["doc1", "doc2"] : List String).get? i = some (pyStem f.name)
          ∧ f.read = Except.ok t
          ∧ (["alpha", "beta"] : List String).get? i = some t :=
  claim_C9_columns_aligned
    (.readable [⟨"doc1.txt", .ok "alpha"⟩, ⟨"doc2.txt", .ok "beta"⟩]) "txt"
    { id := ["doc1", "doc2"], text := ["alpha", "beta"] } rfl

/-- C10: when the parsed JSON value is not an object, subscription raises
`TypeError` — so `get_openai_api_key` fails with a type error (not the
missing-key error, and no value is returned). -/
theorem claim_C10_non_object_type_error (p : String) (j : Json)
    (h : j.isObj = false) :
    get_openai_api_key ⟨p, .ok (.ok j)⟩ = .error .typeError := by
  cases j with
  | obj kvs => simp [Json.isObj] at h
  | null => rfl
  | bool b => rfl
  | num n => rfl
  | str s => rfl
  | arr elems => rfl

/-- Witness for C10: a top-level JSON array. -/
theorem claim_C10_witness :
    get_openai_api_key ⟨"k.json", .ok (.ok (.arr [.str "abc123"]))⟩
      = .error .typeError :=
  claim_C10_non_object_type_error "k.json" (.arr [.str "abc123"]) rfl
